import Mathlib

/-!
Verification development for the bestbets-loader indexing subsystem.

The definitions below are a shallow embedding of the JavaScript sources:
  * `src/lib/transformers/category-to-match-transformer.js`
    (category expansion, name tokenization with a single-flight cache,
    configuration validation and fail-fast instantiation), and
  * the Elasticsearch loader `elastic-bestbets-loader.js`
    (`loadRecord`, `end`, `ValidateConfig`, `GetInstance`).

External collaborators (the Elasticsearch client / elastic-tools) are
modelled as oracles: a pure tokenization function for the transformer's
success path, explicit result fields for each search-engine call of the
loader, and a file oracle for `require`d schema files.  The cooperative
single-threaded concurrency of `tokenizeNameWrap` is modelled as a small
transition system over explicitly interleaved tasks.
-/

-- Equality of oracle results is decidable whenever the payloads decide;
-- used to evaluate claims on concrete oracles.
deriving instance DecidableEq for Except

namespace BestbetsLoader

/-! ### Data model (category-to-match-transformer.js) -/

/-- A best-bets synonym, as produced by the content source. -/
structure Synonym where
  name : String
  isExactMatch : Bool
  deriving DecidableEq, Repr

/-- A best-bets category, as produced by the content source. -/
structure Category where
  categoryID : String
  categoryName : String
  isExactMatch : Bool
  language : String
  includeSynonyms : List Synonym
  excludeSynonyms : List Synonym
  categoryDisplay : String
  deriving DecidableEq, Repr

/-- A match record emitted by `transform`.  In the JavaScript source the
synonym records carry no `categoryDisplay` property and their `tokenCount`
is whatever the lookup dictionary yields (possibly `undefined`); both are
modelled with `Option`. -/
structure Match where
  category : String
  contentID : String
  synonym : String
  language : String
  isNegated : Bool
  isExact : Bool
  tokenCount : Option Nat
  categoryDisplay : Option String := none
  deriving DecidableEq, Repr

/-! ### Category-to-Match expansion (`transform` and helpers)

`tokenizeNames` is `async` in the source and resolves each name through the
cached `tokenizeNameWrap`; on the success path with a fresh transformer the
count of a name is exactly what the analyzer returns for it, so the
analyzer is abstracted as a pure function `tok : String → Nat` here.  The
JavaScript lookup dictionary built by `tokenizeNames` is modelled as an
association list; its keys (the case-insensitively deduplicated names) are
pairwise distinct, so `List.lookup` agrees with JavaScript property
lookup. -/

/-- JavaScript `toLowerCase()` on the names occurring here (ASCII case
folding), written through the character list so that it evaluates by
kernel reduction. -/
def jsToLowerCase (s : String) : String :=
  String.mk (s.data.map Char.toLower)

/-- `extractNamesToTokenize` of the source: category name, then include-
then exclude-synonym names, deduplicated case-insensitively keeping the
first-seen casing and position. -/
def extractNamesToTokenize (cat : Category) : List String :=
  (cat.categoryName ::
      (cat.includeSynonyms.map (fun syn => syn.name) ++
        cat.excludeSynonyms.map (fun syn => syn.name))).foldl
    (fun ac curr =>
      if ac.any (fun el => jsToLowerCase el == jsToLowerCase curr) then ac
      else ac ++ [curr])
    []

/-- `tokenizeNames` of the source: the dictionary from each (distinct) name
to its analyzer token count. -/
def tokenizeNames (tok : String → Nat) (nameArr : List String) : List (String × Nat) :=
  nameArr.map (fun name => (name, tok name))

/-- `extractMatchFromSyn` of the source (its `tokenCount: 0` placeholder is
overwritten by the caller). -/
def extractMatchFromSyn (cat : Category) (isNeg : Bool) (syn : Synonym) : Match :=
  { category := cat.categoryName
    contentID := cat.categoryID
    synonym := syn.name
    language := cat.language
    isNegated := isNeg
    isExact := syn.isExactMatch
    tokenCount := some 0 }

/-- `transform` of the source: the category's own record (carrying the
category display), then one record per include synonym, then one record per
exclude synonym.  Each record's token count is looked up by its own exact
text in the dictionary returned by `tokenizeNames`. -/
def transform (tok : String → Nat) (data : Category) : List Match :=
  let namesToTokenize := extractNamesToTokenize data
  let lookup := tokenizeNames tok namesToTokenize
  let incMatches := data.includeSynonyms.map (fun syn =>
    { extractMatchFromSyn data false syn with tokenCount := lookup.lookup syn.name })
  let exMatches := data.excludeSynonyms.map (fun syn =>
    { extractMatchFromSyn data true syn with tokenCount := lookup.lookup syn.name })
  let catMatch : Match :=
    { category := data.categoryName
      contentID := data.categoryID
      synonym := data.categoryName
      language := data.language
      isNegated := false
      isExact := data.isExactMatch
      tokenCount := lookup.lookup data.categoryName
      categoryDisplay := some data.categoryDisplay }
  catMatch :: (incMatches ++ exMatches)

/-- The `DUPES` category of the transformer test fixtures: the category
name duplicates an include synonym up to casing, and the exclude list
repeats that synonym twice. -/
def dupesCategory : Category :=
  { categoryID := "DUPES"
    categoryName := "DUPES"
    isExactMatch := false
    language := "en"
    includeSynonyms :=
      [{ name := "dupes", isExactMatch := false },
       { name := "not dupe", isExactMatch := false }]
    excludeSynonyms :=
      [{ name := "dupes", isExactMatch := false },
       { name := "dupes", isExactMatch := false }]
    categoryDisplay := "dupes-display" }

/-! ### Claims about `transform` -/

/-- C1: for every category with `m` include- and `n` exclude-synonyms,
`transform` returns exactly `1 + m + n` match records in the fixed order
category record (not negated, synonym text = category name, exactness =
the category's, carrying the category display), then one record per
include synonym in input order (not negated), then one record per exclude
synonym in input order (negated). -/
theorem transform_order (tok : String → Nat) (c : Category) :
    (transform tok c).length = 1 + c.includeSynonyms.length + c.excludeSynonyms.length ∧
    (∃ m0, (transform tok c)[0]? = some m0 ∧ m0.isNegated = false ∧
      m0.synonym = c.categoryName ∧ m0.isExact = c.isExactMatch ∧
      m0.contentID = c.categoryID ∧ m0.categoryDisplay = some c.categoryDisplay) ∧
    (∀ i syn, c.includeSynonyms[i]? = some syn →
      ∃ m, (transform tok c)[i + 1]? = some m ∧ m.isNegated = false ∧
        m.synonym = syn.name ∧ m.isExact = syn.isExactMatch ∧ m.categoryDisplay = none) ∧
    (∀ j syn, c.excludeSynonyms[j]? = some syn →
      ∃ m, (transform tok c)[c.includeSynonyms.length + 1 + j]? = some m ∧
        m.isNegated = true ∧ m.synonym = syn.name ∧ m.isExact = syn.isExactMatch ∧
        m.categoryDisplay = none) := by
  refine ⟨?_, ?_, ?_, ?_⟩
  · simp [transform]
    omega
  · simp only [transform, List.getElem?_cons_zero]
    exact ⟨_, rfl, rfl, rfl, rfl, rfl, rfl⟩
  · intro i syn hsyn
    have hi : i < c.includeSynonyms.length := by
      by_contra h
      rw [List.getElem?_eq_none (Nat.le_of_not_lt h)] at hsyn
      exact Option.noConfusion hsyn
    refine ⟨{ extractMatchFromSyn c false syn with
        tokenCount := (tokenizeNames tok (extractNamesToTokenize c)).lookup syn.name },
      ?_, rfl, rfl, rfl, rfl⟩
    show (transform tok c)[i + 1]? = _
    simp only [transform, List.getElem?_cons_succ]
    rw [List.getElem?_append_left (by simpa using hi), List.getElem?_map, hsyn]
    rfl
  · intro j syn hsyn
    refine ⟨{ extractMatchFromSyn c true syn with
        tokenCount := (tokenizeNames tok (extractNamesToTokenize c)).lookup syn.name },
      ?_, rfl, rfl, rfl, rfl⟩
    show (transform tok c)[c.includeSynonyms.length + 1 + j]? = _
    simp only [transform, show c.includeSynonyms.length + 1 + j
      = (c.includeSynonyms.length + j) + 1 by omega, List.getElem?_cons_succ]
    rw [List.getElem?_append_right (by simp)]
    simp only [List.length_map, Nat.add_sub_cancel_left,
      show c.includeSynonyms.length + j - c.includeSynonyms.length = j by omega]
    rw [List.getElem?_map, hsyn]
    rfl

/-- Witness for `transform_order` at the concrete `DUPES` category. -/
theorem transform_order_witness :
    (transform (fun _ => 2) dupesCategory).length = 1 + 2 + 2 ∧
    (∃ m, (transform (fun _ => 2) dupesCategory)[1]? = some m ∧ m.isNegated = false ∧
      m.synonym = "dupes" ∧ m.isExact = false ∧ m.categoryDisplay = none) ∧
    (∃ m, (transform (fun _ => 2) dupesCategory)[3]? = some m ∧ m.isNegated = true ∧
      m.synonym = "dupes" ∧ m.isExact = false ∧ m.categoryDisplay = none) := by
  have h := transform_order (fun _ => 2) dupesCategory
  exact ⟨h.1,
    h.2.2.1 0 { name := "dupes", isExactMatch := false } rfl,
    h.2.2.2 0 { name := "dupes", isExactMatch := false } rfl⟩

/-- C2: the distinct texts sent upstream for the `DUPES` category are
exactly `DUPES` and `not dupe`, as the claim states; but in the returned
match list the three `dupes` records carry `tokenCount = none`
(JavaScript `undefined`: the lookup dictionary is keyed by the first-seen
casing `DUPES`, so the exact-text lookup for `dupes` misses) while the
`DUPES` category record carries the analyzer's count, so records whose
synonym texts agree after case-normalization do not share one token
count.  This evaluates the code at the claim's own example input. -/
theorem dupes_tokenCount_mismatch :
    extractNamesToTokenize dupesCategory = ["DUPES", "not dupe"] ∧
    (transform (fun _ => 1) dupesCategory).map (fun m => (m.synonym, m.tokenCount)) =
      [("DUPES", some 1), ("dupes", none), ("not dupe", some 1),
        ("dupes", none), ("dupes", none)] ∧
    jsToLowerCase "dupes" = jsToLowerCase "DUPES" := by decide

/-! ### Index lifecycle manager (elastic-bestbets-loader.js)

The `estools` collaborator (elastic-tools) is abstracted as an oracle
`LoaderIO` giving the result of each search-engine call, and the document
writes / index operations actually issued are collected in a trace.  The
alias is modelled as `AliasState`; `setAliasToSingleIndex` is the atomic
single-target alias update delegated to the search engine. -/

/-- A best-bet match as consumed by the loader (`BestbetMatch` of the
source), including the `isCategory` flag and `weight`/`categoryDisplay`
payload read by `loadRecord`. -/
structure BBMatch where
  category : String
  contentID : String
  synonym : String
  language : String
  isNegated : Bool
  isExact : Bool
  tokenCount : Option Nat
  isCategory : Bool
  weight : Option Nat
  categoryDisplay : Option String
  deriving DecidableEq, Repr

/-- The category-display document written to the `categorydisplay`
collection. -/
structure DisplayDoc where
  contentid : String
  name : String
  weight : Option Nat
  content : Option String
  deriving DecidableEq, Repr

/-- The per-synonym document written to the `synonyms` collection. -/
structure SynonymDoc where
  category : String
  contentid : String
  synonym : String
  language : String
  negated : Bool
  exact : Bool
  tokencount : Option Nat
  deriving DecidableEq, Repr

/-- The result reported by `indexDocumentBulk`. -/
structure BulkResult where
  updated : List String
  errors : List String
  deriving DecidableEq, Repr

/-- A document write issued by `loadRecord`. -/
inductive WriteOp where
  | bulk (indexName coll : String) (docs : List (String × SynonymDoc))
  | doc (indexName coll id : String) (document : DisplayDoc)
  deriving DecidableEq, Repr

/-- An index-lifecycle operation issued by `end`. -/
inductive ESOp where
  | optimize (indexName : String)
  | setAlias (aliasName indexName : String)
  | cleanup (aliasName : String) (daysToKeep minIndexesToKeep : Nat)
  deriving DecidableEq, Repr

/-- An error raised by the loader: either an `Error` it constructs itself
(with its message) or a rethrown failure of an upstream call. -/
inductive LoadError where
  | thrown (message : String)
  | upstream (e : String)
  deriving DecidableEq, Repr

/-- Oracle for the elastic-tools calls made by the loader. -/
structure LoaderIO where
  bulkRes : Except String BulkResult
  docRes : Except String Unit
  optimizeRes : Except String Unit
  setAliasRes : Except String Unit
  cleanupRes : Except String Unit
  deriving Repr

/-- The loader's own configuration state. -/
structure Loader where
  aliasName : String
  daysToKeep : Nat
  minIndexesToKeep : Nat
  indexName : String
  deriving DecidableEq, Repr

/-- The alias pointer; its atomic update is delegated to the search
engine. -/
structure AliasState where
  aliasTarget : Option String
  deriving DecidableEq, Repr

/-- The category-display extraction of `loadRecord`: the first match
flagged `isCategory`, mapped to a display document. -/
def extractCategoryDisplay (matchList : List BBMatch) : Option DisplayDoc :=
  ((matchList.filter (fun m => m.isCategory)).map (fun cat =>
    { contentid := cat.contentID
      name := cat.category
      weight := cat.weight
      content := cat.categoryDisplay })).head?

/-- The synonym document built for one match inside `loadRecord`. -/
def mkSynonymDoc (m : BBMatch) : SynonymDoc :=
  { category := m.category
    contentid := m.contentID
    synonym := m.synonym
    language := m.language
    negated := m.isNegated
    exact := m.isExact
    tokencount := m.tokenCount }

/-- `loadRecord` of the source: guards, then the two concurrent writes,
then the duplicate/error check on the bulk result.  When both concurrent
writes fail, the rejection JavaScript observes first is not determined;
the model propagates the bulk failure, which the claims never rely on. -/
def loadRecord (io : LoaderIO) (l : Loader) (matchList : List BBMatch) :
    Except LoadError Unit × List WriteOp :=
  match matchList with
  | [] => (.error (.thrown "A category resulted in 0 matches"), [])
  | m0 :: _ =>
    match extractCategoryDisplay matchList with
    | none =>
      (.error (.thrown ("Category " ++ m0.contentID ++ " is missing its display")), [])
    | some categoryDisplay =>
      let docArr := matchList.enum.map (fun p =>
        (p.2.contentID ++ "_" ++ toString p.1, mkSynonymDoc p.2))
      let writes := [WriteOp.bulk l.indexName "synonyms" docArr,
        WriteOp.doc l.indexName "categorydisplay" categoryDisplay.contentid categoryDisplay]
      match io.bulkRes, io.docRes with
      | .error e, _ => (.error (.upstream e), writes)
      | .ok _, .error e => (.error (.upstream e), writes)
      | .ok res0, .ok _ =>
        if res0.updated.length ≠ 0 then
          (.error (.thrown ("Category " ++ m0.contentID ++ " appears to have duplicates")),
            writes)
        else if res0.errors.length ≠ 0 then
          (.error (.thrown ("Category " ++ m0.contentID ++ " appears had document errors")),
            writes)
        else (.ok (), writes)

/-- `end` of the source (named `endRun` here because `end` is a Lean
keyword): optimize the generation, atomically repoint the alias, then
prune old generations; the first failure is logged and rethrown. -/
def endRun (io : LoaderIO) (l : Loader) (s : AliasState) :
    Except String Unit × AliasState × List ESOp :=
  match io.optimizeRes with
  | .error e => (.error e, s, [ESOp.optimize l.indexName])
  | .ok _ =>
    match io.setAliasRes with
    | .error e =>
      (.error e, s, [ESOp.optimize l.indexName, ESOp.setAlias l.aliasName l.indexName])
    | .ok _ =>
      let s1 : AliasState := { aliasTarget := some l.indexName }
      let trace := [ESOp.optimize l.indexName, ESOp.setAlias l.aliasName l.indexName,
        ESOp.cleanup l.aliasName l.daysToKeep l.minIndexesToKeep]
      match io.cleanupRes with
      | .error e => (.error e, s1, trace)
      | .ok _ => (.ok (), s1, trace)

/-! ### Claims about the index lifecycle manager -/

/-- C3: in `end()`, once optimize and the alias swap succeed, the trace is
exactly optimize, then the alias repoint, then the pruning attempt — the
alias is repointed before pruning and no further alias operation follows —
and when pruning fails, `end()` raises exactly the pruning error while the
alias still targets the new generation. -/
theorem endRun_alias_before_prune (io : LoaderIO) (l : Loader) (s : AliasState)
    (e : String) (h1 : io.optimizeRes = .ok ()) (h2 : io.setAliasRes = .ok ())
    (h3 : io.cleanupRes = .error e) :
    endRun io l s =
      (.error e, { aliasTarget := some l.indexName },
        [ESOp.optimize l.indexName, ESOp.setAlias l.aliasName l.indexName,
          ESOp.cleanup l.aliasName l.daysToKeep l.minIndexesToKeep]) := by
  simp [endRun, h1, h2, h3]

/-- Witness for `endRun_alias_before_prune` on a concrete oracle. -/
theorem endRun_alias_before_prune_witness :
    endRun
      { bulkRes := .ok { updated := [], errors := [] }, docRes := .ok ()
        optimizeRes := .ok (), setAliasRes := .ok (), cleanupRes := .error "prune failed" }
      { aliasName := "bestbets_v1", daysToKeep := 10, minIndexesToKeep := 2
        indexName := "bestbets_v1_1" }
      { aliasTarget := some "bestbets_v1_0" } =
      (.error "prune failed", { aliasTarget := some "bestbets_v1_1" },
        [ESOp.optimize "bestbets_v1_1", ESOp.setAlias "bestbets_v1" "bestbets_v1_1",
          ESOp.cleanup "bestbets_v1" 10 2]) :=
  endRun_alias_before_prune _ _ _ _ rfl rfl rfl

/-- A concrete oracle on which every search-engine call succeeds and the
bulk write reports no updated documents and no per-document errors. -/
def cleanIO : LoaderIO :=
  { bulkRes := .ok { updated := [], errors := [] }
    docRes := .ok ()
    optimizeRes := .ok ()
    setAliasRes := .ok ()
    cleanupRes := .ok () }

/-- A concrete loader configuration used in counterexamples and
witnesses. -/
def sampleLoader : Loader :=
  { aliasName := "bestbets_v1", daysToKeep := 10, minIndexesToKeep := 2
    indexName := "bestbets_v1_1" }

/-- A match that is flagged as the category record but carries no category
display payload. -/
def flaggedNoDisplayMatch : BBMatch :=
  { category := "Cat", contentID := "431121", synonym := "Cat", language := "en"
    isNegated := false, isExact := false, tokenCount := some 1
    isCategory := true, weight := some 30, categoryDisplay := none }

/-- C6 counterexample: a non-empty match list in which no record carries a
category display payload, on which `loadRecord` nevertheless raises no
error and issues its document writes — the code keys the mandatory-display
check on the `isCategory` flag, not on the presence of a display
payload. -/
theorem loadRecord_no_payload_counterexample :
    (∀ m ∈ [flaggedNoDisplayMatch], m.categoryDisplay = none) ∧
    (loadRecord cleanIO sampleLoader [flaggedNoDisplayMatch]).1 = .ok () ∧
    (loadRecord cleanIO sampleLoader [flaggedNoDisplayMatch]).2 ≠ [] := by decide

/-- C6 (amended): for every non-empty match list in which no record is
flagged as the category record (`isCategory`), `loadRecord` raises an
error whose message references the first match's category id and performs
no document writes. -/
theorem loadRecord_missing_display (io : LoaderIO) (l : Loader)
    (m0 : BBMatch) (ms : List BBMatch)
    (h : ∀ m ∈ m0 :: ms, m.isCategory = false) :
    loadRecord io l (m0 :: ms) =
      (.error (.thrown ("Category " ++ m0.contentID ++ " is missing its display")), []) := by
  have hf : (m0 :: ms).filter (fun m => m.isCategory) = [] := by
    rw [List.filter_eq_nil_iff]
    intro m hm
    simp [h m hm]
  simp [loadRecord, extractCategoryDisplay, hf]

/-- Witness for `loadRecord_missing_display` on a concrete match list. -/
theorem loadRecord_missing_display_witness :
    loadRecord cleanIO sampleLoader
      [{ flaggedNoDisplayMatch with isCategory := false, contentID := "999" }] =
      (.error (.thrown "Category 999 is missing its display"), []) :=
  loadRecord_missing_display _ _ _ _ (by decide)

/-- C7: whenever `loadRecord`'s precondition checks pass (the list is
non-empty and some record is flagged as the category record) and both
concurrent writes resolve, a bulk result with any overwritten documents
fails with the duplicates message naming the first match's category id;
otherwise any per-document errors fail with the document-errors message
naming that id; and if both lists are empty the call completes without
error. -/
theorem loadRecord_bulk_result (io : LoaderIO) (l : Loader)
    (m0 : BBMatch) (ms : List BBMatch) (br : BulkResult)
    (hcat : ∃ m ∈ m0 :: ms, m.isCategory = true)
    (hb : io.bulkRes = .ok br) (hd : io.docRes = .ok ()) :
    (br.updated ≠ [] →
      (loadRecord io l (m0 :: ms)).1 =
        .error (.thrown ("Category " ++ m0.contentID ++ " appears to have duplicates"))) ∧
    (br.updated = [] → br.errors ≠ [] →
      (loadRecord io l (m0 :: ms)).1 =
        .error (.thrown ("Category " ++ m0.contentID ++ " appears had document errors"))) ∧
    (br.updated = [] → br.errors = [] →
      (loadRecord io l (m0 :: ms)).1 = .ok ()) := by
  have hne : (m0 :: ms).filter (fun m => m.isCategory) ≠ [] := by
    intro hfil
    obtain ⟨m, hm, hmc⟩ := hcat
    have := List.filter_eq_nil_iff.mp hfil m hm
    simp [hmc] at this
  obtain ⟨a, t, hft⟩ : ∃ a t, (m0 :: ms).filter (fun m => m.isCategory) = a :: t := by
    cases hft : (m0 :: ms).filter (fun m => m.isCategory) with
    | nil => exact absurd hft hne
    | cons a t => exact ⟨a, t, rfl⟩
  refine ⟨?_, ?_, ?_⟩
  · intro hu
    simp [loadRecord, extractCategoryDisplay, hft, hb, hd, hu]
  · intro hu he
    simp [loadRecord, extractCategoryDisplay, hft, hb, hd, hu, he]
  · intro hu he
    simp [loadRecord, extractCategoryDisplay, hft, hb, hd, hu, he]

/-- A category match that does carry its display payload. -/
def displayedMatch : BBMatch :=
  { flaggedNoDisplayMatch with categoryDisplay := some "display-html" }

/-- Witness for `loadRecord_bulk_result` on a concrete oracle reporting an
overwritten document. -/
theorem loadRecord_bulk_result_witness :
    (loadRecord { cleanIO with bulkRes := .ok { updated := ["431121_0"], errors := [] } }
        sampleLoader [displayedMatch]).1 =
      .error (.thrown "Category 431121 appears to have duplicates") :=
  (loadRecord_bulk_result _ _ _ _ _
    ⟨displayedMatch, by decide, by decide⟩ rfl rfl).1 (by decide)

/-! ### Configuration validation and fail-fast instantiation

Configuration fields are loosely typed JavaScript values; `CVal` models
the value shapes the validators inspect, together with JavaScript
truthiness and `typeof` checks.  Structured validation errors are
modelled by their message strings.  `require`d schema files are an
oracle: for the transformer it yields the analyzer names defined in a
loadable settings file, for the loader just loadability. -/

/-- A loosely-typed configuration value. -/
inductive CVal where
  | undef
  | str (s : String)
  | num (n : Int)
  | strs (l : List String)
  | boolean (b : Bool)
  deriving DecidableEq, Repr

/-- JavaScript truthiness of a configuration value (`undefined`, `""`, `0`
and `false` are falsy; arrays are always truthy). -/
def CVal.truthy : CVal → Bool
  | .undef => false
  | .str s => s != ""
  | .num n => n != 0
  | .strs _ => true
  | .boolean b => b

/-- JavaScript `typeof v === 'string'`. -/
def CVal.isString : CVal → Bool
  | .str _ => true
  | _ => false

/-- JavaScript `typeof v === 'number'`. -/
def CVal.isNumber : CVal → Bool
  | .num _ => true
  | _ => false

/-- The destructuring default: replaces only an `undefined` value. -/
def CVal.orDefault (v d : CVal) : CVal :=
  match v with
  | .undef => d
  | v => v

/-- The string content of a value known to be a string. -/
def CVal.asString : CVal → String
  | .str s => s
  | _ => ""

/-- The numeric content of a value known to be a number. -/
def CVal.asInt : CVal → Int
  | .num n => n
  | _ => 0

/-- The shared `socketLimit` guard of both components:
`config.socketLimit && (typeof config.socketLimit !== 'number' ||
config.socketLimit <= 0)`. -/
def badSocketLimit (v : CVal) : Bool :=
  v.truthy && (!v.isNumber || decide (v.asInt ≤ 0))

/-- The configuration fields the transformer recognizes. -/
structure TransformerConfig where
  eshosts : CVal
  settingsPath : CVal
  analyzer : CVal
  socketLimit : CVal
  deriving DecidableEq, Repr

/-- The configuration fields the loader recognizes. -/
structure LoaderConfig where
  eshosts : CVal
  mappingPath : CVal
  settingsPath : CVal
  socketLimit : CVal
  aliasName : CVal
  daysToKeep : CVal
  minIndexesToKeep : CVal
  deriving DecidableEq, Repr

/-- The state a successfully constructed loader starts from. -/
structure LoaderInstance where
  aliasName : String
  daysToKeep : Int
  minIndexesToKeep : Int
  deriving DecidableEq, Repr

namespace CategoryToMatchTransformer

/-- `ValidateConfig` of the transformer: eshosts, then settings path, then
analyzer name, then socket limit. -/
def ValidateConfig (config : TransformerConfig) : List String :=
  (if !config.eshosts.truthy then
      ["eshosts is required for the transformer"] else []) ++
  (if !config.settingsPath.truthy || !config.settingsPath.isString then
      ["settingsPath is required for the transformer"] else []) ++
  (if !config.analyzer.truthy || !config.analyzer.isString then
      ["You must supply the name of analyzer defined in the settings"] else []) ++
  (if badSocketLimit config.socketLimit then
      ["socketLimit must be a number greater than 0"] else [])

/-- `GetInstance` of the transformer, with the `require`d settings file
abstracted as an oracle from the settings path to the analyzer names it
defines (`none` when the file cannot be loaded).  The construction of the
Elasticsearch client and of the transformer instance itself cannot fail,
so the result is reduced to the error raised, if any. -/
def GetInstance (files : String → Option (List String))
    (config : TransformerConfig) : Except String Unit :=
  if !config.eshosts.truthy then
    .error "eshosts is required for the elastic loader"
  else if badSocketLimit config.socketLimit then
    .error "socketLimit must be a number greater than 0"
  else if !config.settingsPath.truthy || !config.settingsPath.isString then
    .error "settingsPath is required for the elastic loader"
  else
    match config.settingsPath with
    | .str sp =>
      match files sp with
      | none => .error ("settingsPath cannot be loaded: " ++ sp)
      | some analyzers =>
        if !config.analyzer.truthy || !config.analyzer.isString then
          .error "You must supply the name of analyzer defined in the settings"
        else if analyzers.contains config.analyzer.asString then .ok ()
        else .error "Could not find analyzer in settings"
    | _ => .error "settingsPath is required for the elastic loader"

end CategoryToMatchTransformer

namespace ElasticBestbetsLoader

/-- `ValidateConfig` of the loader: mapping path, then settings path, then
eshosts, then socket limit. -/
def ValidateConfig (config : LoaderConfig) : List String :=
  (if !config.mappingPath.truthy || !config.mappingPath.isString then
      ["mappingPath is required for the elastic loader"] else []) ++
  (if !config.settingsPath.truthy || !config.settingsPath.isString then
      ["settingsPath is required for the elastic loader"] else []) ++
  (if !config.eshosts.truthy then
      ["eshosts is required for the elastic loader"] else []) ++
  (if badSocketLimit config.socketLimit then
      ["socketLimit must be a number greater than 0"] else [])

/-- The loader constructor: aliasName, daysToKeep and minIndexesToKeep are
destructured with defaults `false`, `10` and `2` and then checked. -/
def construct (config : LoaderConfig) : Except String LoaderInstance :=
  let aliasName := config.aliasName.orDefault (.boolean false)
  let daysToKeep := config.daysToKeep.orDefault (.num 10)
  let minIndexesToKeep := config.minIndexesToKeep.orDefault (.num 2)
  if !aliasName.truthy || !aliasName.isString then
    .error "aliasName is required for the elastic loader"
  else if !daysToKeep.truthy || !daysToKeep.isNumber then
    .error "daysToKeep is required for the elastic loader"
  else if !minIndexesToKeep.truthy || !minIndexesToKeep.isNumber then
    .error "minIndexesToKeep is required for the elastic loader"
  else
    .ok { aliasName := aliasName.asString
          daysToKeep := daysToKeep.asInt
          minIndexesToKeep := minIndexesToKeep.asInt }

/-- `GetInstance` of the loader, with `require`d schema files abstracted
as a loadability oracle on paths: mapping path (and its load), settings
path (and its load), eshosts, socket limit, then the constructor. -/
def GetInstance (files : String → Bool) (config : LoaderConfig) :
    Except String LoaderInstance :=
  if !config.mappingPath.truthy || !config.mappingPath.isString then
    .error "mappingPath is required for the elastic loader"
  else
    match config.mappingPath with
    | .str mp =>
      if !(files mp) then .error ("mappingPath cannot be loaded: " ++ mp)
      else if !config.settingsPath.truthy || !config.settingsPath.isString then
        .error "settingsPath is required for the elastic loader"
      else
        match config.settingsPath with
        | .str sp =>
          if !(files sp) then .error ("settingsPath cannot be loaded: " ++ sp)
          else if !config.eshosts.truthy then
            .error "eshosts is required for the elastic loader"
          else if badSocketLimit config.socketLimit then
            .error "socketLimit must be a number greater than 0"
          else construct config
        | _ => .error "settingsPath is required for the elastic loader"
    | _ => .error "mappingPath is required for the elastic loader"

end ElasticBestbetsLoader

/-! ### Claims about configuration validation -/

/-- A fully valid transformer configuration (the test fixtures' step
config). -/
def validTransformerConfig : TransformerConfig :=
  { eshosts := .strs ["http://example.org:9200"]
    settingsPath := .str "es-mappings/settings.json"
    analyzer := .str "nostem"
    socketLimit := .undef }

/-- A fully valid loader configuration (the test fixtures' step config). -/
def validLoaderConfig : LoaderConfig :=
  { eshosts := .strs ["http://localhost:9200"]
    mappingPath := .str "es-mappings/mappings.json"
    settingsPath := .str "es-mappings/settings.json"
    socketLimit := .undef
    aliasName := .str "bestbets_v1"
    daysToKeep := .num 10
    minIndexesToKeep := .undef }

/-- C9 counterexample: on a loader configuration omitting both `eshosts`
and `mappingPath`, `ValidateConfig` reports the mapping-path error before
the hosts error — the loader checks mapping path, settings path, hosts,
socket limit, not the claimed hosts-first order. -/
theorem validateConfig_order_counterexample :
    ElasticBestbetsLoader.ValidateConfig
        { validLoaderConfig with eshosts := .undef, mappingPath := .undef } =
      ["mappingPath is required for the elastic loader",
       "eshosts is required for the elastic loader"] ∧
    ¬ ElasticBestbetsLoader.ValidateConfig
        { validLoaderConfig with eshosts := .undef, mappingPath := .undef } =
      ["eshosts is required for the elastic loader",
       "mappingPath is required for the elastic loader"] := by decide

/-- C9 (amended): each component's pure `ValidateConfig` returns `[]` on a
fully valid configuration and exactly one structured error when exactly
one required field is invalid; with several invalid fields the errors come
in each component's own declaration order — hosts, settings path, analyzer
name, socket limit for the transformer, but mapping path, settings path,
hosts, socket limit for the loader. -/
theorem validateConfig_structured :
    (∀ cfg : TransformerConfig, cfg.eshosts.truthy = true →
      (!cfg.settingsPath.truthy || !cfg.settingsPath.isString) = false →
      (!cfg.analyzer.truthy || !cfg.analyzer.isString) = false →
      badSocketLimit cfg.socketLimit = false →
      CategoryToMatchTransformer.ValidateConfig cfg = []) ∧
    (∀ cfg : TransformerConfig, cfg.eshosts.truthy = false →
      (!cfg.settingsPath.truthy || !cfg.settingsPath.isString) = false →
      (!cfg.analyzer.truthy || !cfg.analyzer.isString) = false →
      badSocketLimit cfg.socketLimit = false →
      CategoryToMatchTransformer.ValidateConfig cfg =
        ["eshosts is required for the transformer"]) ∧
    (∀ cfg : TransformerConfig, cfg.eshosts.truthy = true →
      (!cfg.settingsPath.truthy || !cfg.settingsPath.isString) = true →
      (!cfg.analyzer.truthy || !cfg.analyzer.isString) = false →
      badSocketLimit cfg.socketLimit = false →
      CategoryToMatchTransformer.ValidateConfig cfg =
        ["settingsPath is required for the transformer"]) ∧
    (∀ cfg : TransformerConfig, cfg.eshosts.truthy = true →
      (!cfg.settingsPath.truthy || !cfg.settingsPath.isString) = false →
      (!cfg.analyzer.truthy || !cfg.analyzer.isString) = true →
      badSocketLimit cfg.socketLimit = false →
      CategoryToMatchTransformer.ValidateConfig cfg =
        ["You must supply the name of analyzer defined in the settings"]) ∧
    (∀ cfg : LoaderConfig,
      (!cfg.mappingPath.truthy || !cfg.mappingPath.isString) = false →
      (!cfg.settingsPath.truthy || !cfg.settingsPath.isString) = false →
      cfg.eshosts.truthy = true → badSocketLimit cfg.socketLimit = false →
      ElasticBestbetsLoader.ValidateConfig cfg = []) ∧
    (∀ cfg : LoaderConfig,
      (!cfg.mappingPath.truthy || !cfg.mappingPath.isString) = true →
      (!cfg.settingsPath.truthy || !cfg.settingsPath.isString) = false →
      cfg.eshosts.truthy = true → badSocketLimit cfg.socketLimit = false →
      ElasticBestbetsLoader.ValidateConfig cfg =
        ["mappingPath is required for the elastic loader"]) ∧
    (∀ cfg : LoaderConfig,
      (!cfg.mappingPath.truthy || !cfg.mappingPath.isString) = false →
      (!cfg.settingsPath.truthy || !cfg.settingsPath.isString) = true →
      cfg.eshosts.truthy = true → badSocketLimit cfg.socketLimit = false →
      ElasticBestbetsLoader.ValidateConfig cfg =
        ["settingsPath is required for the elastic loader"]) ∧
    (∀ cfg : LoaderConfig,
      (!cfg.mappingPath.truthy || !cfg.mappingPath.isString) = false →
      (!cfg.settingsPath.truthy || !cfg.settingsPath.isString) = false →
      cfg.eshosts.truthy = false → badSocketLimit cfg.socketLimit = false →
      ElasticBestbetsLoader.ValidateConfig cfg =
        ["eshosts is required for the elastic loader"]) ∧
    (∀ cfg : LoaderConfig,
      (!cfg.mappingPath.truthy || !cfg.mappingPath.isString) = true →
      (!cfg.settingsPath.truthy || !cfg.settingsPath.isString) = false →
      cfg.eshosts.truthy = false → badSocketLimit cfg.socketLimit = false →
      ElasticBestbetsLoader.ValidateConfig cfg =
        ["mappingPath is required for the elastic loader",
         "eshosts is required for the elastic loader"]) := by
  refine ⟨?_, ?_, ?_, ?_, ?_, ?_, ?_, ?_, ?_⟩ <;>
    intro cfg h1 h2 h3 h4 <;>
    simp [CategoryToMatchTransformer.ValidateConfig,
      ElasticBestbetsLoader.ValidateConfig, h1, h2, h3, h4]

/-- Witness for `validateConfig_structured`: the two-omission loader case
on a concrete configuration. -/
theorem validateConfig_structured_witness :
    ElasticBestbetsLoader.ValidateConfig
        { validLoaderConfig with eshosts := .undef, mappingPath := .undef } =
      ["mappingPath is required for the elastic loader",
       "eshosts is required for the elastic loader"] :=
  validateConfig_structured.2.2.2.2.2.2.2.2 _ rfl rfl rfl rfl

/-- If the transformer's `GetInstance` succeeds, every field check of its
`ValidateConfig` passes. -/
theorem cmt_getInstance_ok_validate (files : String → Option (List String))
    (cfg : TransformerConfig)
    (h : ∃ u, CategoryToMatchTransformer.GetInstance files cfg = .ok u) :
    CategoryToMatchTransformer.ValidateConfig cfg = [] := by
  obtain ⟨u, h⟩ := h
  unfold CategoryToMatchTransformer.GetInstance at h
  repeat' split at h
  all_goals
    simp_all [CategoryToMatchTransformer.ValidateConfig]

/-- If the loader's `GetInstance` succeeds, every field check of its
`ValidateConfig` passes. -/
theorem ebl_getInstance_ok_validate (files : String → Bool) (cfg : LoaderConfig)
    (h : ∃ inst, ElasticBestbetsLoader.GetInstance files cfg = .ok inst) :
    ElasticBestbetsLoader.ValidateConfig cfg = [] := by
  obtain ⟨inst, h⟩ := h
  unfold ElasticBestbetsLoader.GetInstance at h
  repeat' split at h
  all_goals
    simp_all [ElasticBestbetsLoader.ValidateConfig]

/-- C10 counterexample: on a transformer configuration lacking `eshosts`,
the advisory path produces the structured error `eshosts is required for
the transformer` while the fail-fast path raises `eshosts is required for
the elastic loader` — the wordings are not identical; moreover on a fully
valid configuration whose settings file cannot be loaded, `ValidateConfig`
returns `[]` yet `GetInstance` raises, so raising is not equivalent to a
non-empty error list either. -/
theorem getInstance_wording_counterexample :
    CategoryToMatchTransformer.ValidateConfig
        { validTransformerConfig with eshosts := .undef } =
      ["eshosts is required for the transformer"] ∧
    CategoryToMatchTransformer.GetInstance (fun _ => none)
        { validTransformerConfig with eshosts := .undef } =
      .error "eshosts is required for the elastic loader" ∧
    ("eshosts is required for the elastic loader" : String) ≠
      "eshosts is required for the transformer" ∧
    CategoryToMatchTransformer.ValidateConfig validTransformerConfig = [] ∧
    CategoryToMatchTransformer.GetInstance (fun _ => none) validTransformerConfig =
      .error "settingsPath cannot be loaded: es-mappings/settings.json" := by decide

/-- C10 (amended): whenever a component's `ValidateConfig` returns a
non-empty error list, its `GetInstance` raises; the converse fails, since
`GetInstance` also raises on unloadable schema files (and, for the loader,
on constructor checks such as `aliasName`) when `ValidateConfig` returns
`[]`.  On the loader the raised message is word-for-word the
corresponding structured error for each of the four shared field checks
(mapping path shown here, and the socket limit under passing earlier
checks); on the transformer this holds for the socket-limit and
analyzer-name checks, while for `eshosts` (and `settingsPath`) the
fail-fast message says `for the elastic loader` where the advisory one
says `for the transformer`. -/
theorem getInstance_vs_validateConfig :
    (∀ (files : String → Option (List String)) (cfg : TransformerConfig),
      CategoryToMatchTransformer.ValidateConfig cfg ≠ [] →
      ∃ msg, CategoryToMatchTransformer.GetInstance files cfg = .error msg) ∧
    (∀ (files : String → Bool) (cfg : LoaderConfig),
      ElasticBestbetsLoader.ValidateConfig cfg ≠ [] →
      ∃ msg, ElasticBestbetsLoader.GetInstance files cfg = .error msg) ∧
    (∀ (files : String → Bool) (cfg : LoaderConfig),
      (!cfg.mappingPath.truthy || !cfg.mappingPath.isString) = true →
      ElasticBestbetsLoader.GetInstance files cfg =
        .error "mappingPath is required for the elastic loader" ∧
      (ElasticBestbetsLoader.ValidateConfig cfg).head? =
        some "mappingPath is required for the elastic loader") ∧
    (∀ (files : String → Bool) (cfg : LoaderConfig) (mp sp : String),
      cfg.mappingPath = .str mp → mp ≠ "" → files mp = true →
      cfg.settingsPath = .str sp → sp ≠ "" → files sp = true →
      cfg.eshosts.truthy = true → badSocketLimit cfg.socketLimit = true →
      ElasticBestbetsLoader.GetInstance files cfg =
        .error "socketLimit must be a number greater than 0" ∧
      ElasticBestbetsLoader.ValidateConfig cfg =
        ["socketLimit must be a number greater than 0"]) ∧
    (∀ (files : String → Option (List String)) (cfg : TransformerConfig),
      cfg.eshosts.truthy = true → badSocketLimit cfg.socketLimit = true →
      CategoryToMatchTransformer.GetInstance files cfg =
        .error "socketLimit must be a number greater than 0" ∧
      "socketLimit must be a number greater than 0" ∈
        CategoryToMatchTransformer.ValidateConfig cfg) ∧
    (∀ (files : String → Option (List String)) (cfg : TransformerConfig)
        (sp : String) (ans : List String),
      cfg.eshosts.truthy = true → badSocketLimit cfg.socketLimit = false →
      cfg.settingsPath = .str sp → sp ≠ "" → files sp = some ans →
      cfg.analyzer = .undef →
      CategoryToMatchTransformer.GetInstance files cfg =
        .error "You must supply the name of analyzer defined in the settings" ∧
      CategoryToMatchTransformer.ValidateConfig cfg =
        ["You must supply the name of analyzer defined in the settings"]) ∧
    (∀ (files : String → Option (List String)) (cfg : TransformerConfig),
      cfg.eshosts.truthy = false →
      CategoryToMatchTransformer.GetInstance files cfg =
        .error "eshosts is required for the elastic loader" ∧
      (CategoryToMatchTransformer.ValidateConfig cfg).head? =
        some "eshosts is required for the transformer" ∧
      ("eshosts is required for the elastic loader" : String) ≠
        "eshosts is required for the transformer") := by
  refine ⟨?_, ?_, ?_, ?_, ?_, ?_, ?_⟩
  · intro files cfg hvc
    cases hgi : CategoryToMatchTransformer.GetInstance files cfg with
    | error msg => exact ⟨msg, rfl⟩
    | ok u => exact absurd (cmt_getInstance_ok_validate files cfg ⟨u, hgi⟩) hvc
  · intro files cfg hvc
    cases hgi : ElasticBestbetsLoader.GetInstance files cfg with
    | error msg => exact ⟨msg, rfl⟩
    | ok inst => exact absurd (ebl_getInstance_ok_validate files cfg ⟨inst, hgi⟩) hvc
  · intro files cfg h1
    constructor
    · simp [ElasticBestbetsLoader.GetInstance, h1]
    · simp [ElasticBestbetsLoader.ValidateConfig, h1]
  · intro files cfg mp sp hmp hmp0 hfmp hsp hsp0 hfsp hes hsock
    have hmt : (CVal.str mp).truthy = true := by simp [CVal.truthy, hmp0]
    have hst : (CVal.str sp).truthy = true := by simp [CVal.truthy, hsp0]
    constructor
    · simp [ElasticBestbetsLoader.GetInstance, hmp, hsp, hmt, hst, CVal.isString,
        hfmp, hfsp, hes, hsock]
    · simp [ElasticBestbetsLoader.ValidateConfig, hmp, hsp, hmt, hst, CVal.isString,
        hes, hsock]
  · intro files cfg hes hsock
    constructor
    · simp [CategoryToMatchTransformer.GetInstance, hes, hsock]
    · simp [CategoryToMatchTransformer.ValidateConfig, hes, hsock]
  · intro files cfg sp ans hes hsock hsp hsp0 hfsp hana
    have hst : (CVal.str sp).truthy = true := by simp [CVal.truthy, hsp0]
    have hsi : (CVal.str sp).isString = true := rfl
    have hut : CVal.undef.truthy = false := rfl
    constructor
    · simp [CategoryToMatchTransformer.GetInstance, hes, hsock, hsp, hst, hsi,
        hfsp, hana, hut]
    · simp [CategoryToMatchTransformer.ValidateConfig, hes, hsock, hsp, hst, hsi,
        hana, hut]
  · intro files cfg hes
    refine ⟨?_, ?_, by decide⟩
    · simp [CategoryToMatchTransformer.GetInstance, hes]
    · simp [CategoryToMatchTransformer.ValidateConfig, hes]

/-- Witness for `getInstance_vs_validateConfig`: the transformer's
`eshosts` wording difference on a concrete configuration. -/
theorem getInstance_vs_validateConfig_witness :
    CategoryToMatchTransformer.GetInstance (fun _ => none)
        { validTransformerConfig with eshosts := .undef } =
      .error "eshosts is required for the elastic loader" ∧
    (CategoryToMatchTransformer.ValidateConfig
        { validTransformerConfig with eshosts := .undef }).head? =
      some "eshosts is required for the transformer" := by
  have h := getInstance_vs_validateConfig.2.2.2.2.2.2 (fun _ => none)
    { validTransformerConfig with eshosts := .undef } (by decide)
  exact ⟨h.1, h.2.1⟩

/-! ### Single-flight tokenization cache (`tokenizeNameWrap`)

`tokenizeNameWrap` runs on a single-threaded event loop; each concurrent
caller is modelled as a task whose suspension points cut its execution
into atomic steps, and a schedule is an arbitrary interleaving of task
steps:

  * `Phase.start` — the synchronous prologue: the cache check (JavaScript
    truthiness, so a cached `0` does not count), then the in-flight check
    on `fetchQueue`, and otherwise setting the flag and issuing the
    upstream analyze call, all without an intervening suspension;
  * `Phase.sleeping` — suspended in `await timeout(100)`; waking re-runs
    `tokenizeNameWrap` from the top (the recursive call);
  * `Phase.fetching` — suspended in `await this.tokenizeName(name)`; on
    resolution the cache store, flag reset and return happen
    synchronously, on rejection the error propagates out of
    `tokenizeNameWrap` leaving cache and flag untouched;
  * `Phase.done r` — the caller's promise settled with `r`.

JavaScript object assignment is modelled by consing onto an association
list (the new binding shadows the old); `calls` records every upstream
analyze call ever issued, and the upstream service is an oracle from the
(original-casing) name to its outcome. -/

/-- The execution phase of one `tokenizeNameWrap` caller. -/
inductive Phase where
  | start
  | sleeping
  | fetching
  | done (result : Except Unit Nat)
  deriving DecidableEq, Repr

/-- One concurrent caller of `tokenizeNameWrap` and its phase. -/
structure TaskState where
  name : String
  phase : Phase
  deriving DecidableEq, Repr

/-- The transformer instance's mutable state plus the callers and the
upstream call log. -/
structure Sys where
  tokenCache : List (String × Nat)
  fetchQueue : List (String × Bool)
  tasks : List TaskState
  calls : List String
  deriving DecidableEq, Repr

/-- Truthiness of `this.tokenCache[key]`: present and non-zero. -/
def cacheTruthy (cache : List (String × Nat)) (key : String) : Bool :=
  match cache.lookup key with
  | some c => c != 0
  | none => false

/-- The value of `this.tokenCache[key]` that a cache hit returns. -/
def cacheValue (cache : List (String × Nat)) (key : String) : Nat :=
  (cache.lookup key).getD 0

/-- Truthiness of `this.fetchQueue[key]`. -/
def queueTruthy (queue : List (String × Bool)) (key : String) : Bool :=
  (queue.lookup key).getD false

/-- One atomic step of caller `i` (a no-op on an absent or settled task):
the prologue from `start`, waking from the timeout, or settling the
in-flight upstream call according to the oracle. -/
def stepTask (orc : String → Except Unit Nat) (s : Sys) (i : Nat) : Sys :=
  match s.tasks[i]? with
  | none => s
  | some t =>
    match t.phase with
    | .start =>
      let key := jsToLowerCase t.name
      if cacheTruthy s.tokenCache key then
        { s with tasks :=
            s.tasks.set i { t with phase := .done (.ok (cacheValue s.tokenCache key)) } }
      else if queueTruthy s.fetchQueue key then
        { s with tasks := s.tasks.set i { t with phase := .sleeping } }
      else
        { s with fetchQueue := (key, true) :: s.fetchQueue
                 calls := s.calls ++ [t.name]
                 tasks := s.tasks.set i { t with phase := .fetching } }
    | .sleeping => { s with tasks := s.tasks.set i { t with phase := .start } }
    | .fetching =>
      match orc t.name with
      | .ok c =>
        { s with tokenCache := (jsToLowerCase t.name, c) :: s.tokenCache
                 fetchQueue := (jsToLowerCase t.name, false) :: s.fetchQueue
                 tasks := s.tasks.set i { t with phase := .done (.ok c) } }
      | .error e =>
        { s with tasks := s.tasks.set i { t with phase := .done (.error e) } }
    | .done _ => s

/-- Run a schedule: an arbitrary interleaving of caller steps. -/
def runSched (orc : String → Except Unit Nat) (s : Sys) (sched : List Nat) : Sys :=
  sched.foldl (stepTask orc) s

/-- The initial state: fresh cache and flag map, one caller per name, no
upstream call issued yet. -/
def initSys (names : List String) : Sys :=
  { tokenCache := []
    fetchQueue := []
    tasks := names.map (fun n => { name := n, phase := .start })
    calls := [] }

/-- Whether caller `i` has settled. -/
def taskDone (s : Sys) (i : Nat) : Bool :=
  match s.tasks[i]? with
  | some t =>
    match t.phase with
    | .done _ => true
    | _ => false
  | none => false

/-- At most one caller is inside the upstream analyze call for any one
normalized name. -/
def SingleFlightT (tasks : List TaskState) : Prop :=
  ∀ (i j : Nat) (ti tj : TaskState), tasks[i]? = some ti → tasks[j]? = some tj →
    ti.phase = .fetching → tj.phase = .fetching →
    jsToLowerCase ti.name = jsToLowerCase tj.name → i = j

/-- Every caller inside the upstream call has its normalized name marked
in-flight in `fetchQueue`. -/
def QueueMarksFetchT (tasks : List TaskState) (queue : List (String × Bool)) : Prop :=
  ∀ (i : Nat) (ti : TaskState), tasks[i]? = some ti → ti.phase = .fetching →
    queueTruthy queue (jsToLowerCase ti.name) = true

/-- Elements of a list after `set` are the new element at the set index or
old elements elsewhere. -/
theorem getElem?_set_cases {α : Type} {l : List α} {i j : Nat} {b a : α}
    (h : (l.set i b)[j]? = some a) : (i = j ∧ b = a) ∨ (i ≠ j ∧ l[j]? = some a) := by
  rw [List.getElem?_set] at h
  by_cases hij : i = j
  · rw [if_pos hij] at h
    refine Or.inl ⟨hij, ?_⟩
    split at h
    · exact Option.some.inj h
    · exact Option.noConfusion h
  · rw [if_neg hij] at h
    exact Or.inr ⟨hij, h⟩

/-- Shadowing lookup on a consed association list. -/
theorem queueTruthy_cons (k : String) (b : Bool) (q : List (String × Bool)) (key : String) :
    queueTruthy ((k, b) :: q) key = if key = k then b else queueTruthy q key := by
  by_cases h : key = k
  · simp [queueTruthy, List.lookup_cons, h]
  · have hbeq : (key == k) = false := beq_eq_false_iff_ne.mpr h
    simp [queueTruthy, List.lookup_cons, h, hbeq]

/-- Replacing a task by a non-fetching one preserves single flight. -/
theorem singleFlightT_set_nonfetch {tasks : List TaskState} {i : Nat} {t' : TaskState}
    (h1 : SingleFlightT tasks) (hph : t'.phase ≠ .fetching) :
    SingleFlightT (tasks.set i t') := by
  intro a b ta tb hta htb hfa hfb hkey
  rcases getElem?_set_cases hta with ⟨hia, hba⟩ | ⟨hia, hta'⟩
  · exact absurd (by rw [hba]; exact hfa) hph
  · rcases getElem?_set_cases htb with ⟨hib, hbb⟩ | ⟨hib, htb'⟩
    · exact absurd (by rw [hbb]; exact hfb) hph
    · exact h1 a b ta tb hta' htb' hfa hfb hkey

/-- Replacing a task by a non-fetching one preserves the queue marking. -/
theorem queueMarksFetchT_set_nonfetch {tasks : List TaskState}
    {queue : List (String × Bool)} {i : Nat} {t' : TaskState}
    (h2 : QueueMarksFetchT tasks queue) (hph : t'.phase ≠ .fetching) :
    QueueMarksFetchT (tasks.set i t') queue := by
  intro a ta hta hfa
  rcases getElem?_set_cases hta with ⟨hia, hba⟩ | ⟨hia, hta'⟩
  · exact absurd (by rw [hba]; exact hfa) hph
  · exact h2 a ta hta' hfa

/-- A task may start fetching only when its key is not marked in-flight,
so no other task can be fetching that key: single flight is preserved. -/
theorem singleFlightT_enter_fetch {tasks : List TaskState}
    {queue : List (String × Bool)} {i : Nat} {t t' : TaskState}
    (h1 : SingleFlightT tasks) (h2 : QueueMarksFetchT tasks queue)
    (hq : queueTruthy queue (jsToLowerCase t.name) = false)
    (hname : t'.name = t.name) :
    SingleFlightT (tasks.set i t') := by
  intro a b ta tb hta htb hfa hfb hkey
  rcases getElem?_set_cases hta with ⟨hia, hba⟩ | ⟨hia, hta'⟩
  · rcases getElem?_set_cases htb with ⟨hib, hbb⟩ | ⟨hib, htb'⟩
    · rw [← hia, ← hib]
    · exfalso
      have hqb := h2 b tb htb' hfb
      rw [← hkey, ← hba, hname] at hqb
      rw [hq] at hqb
      exact Bool.noConfusion hqb
  · rcases getElem?_set_cases htb with ⟨hib, hbb⟩ | ⟨hib, htb'⟩
    · exfalso
      have hqa := h2 a ta hta' hfa
      rw [hkey, ← hbb, hname] at hqa
      rw [hq] at hqa
      exact Bool.noConfusion hqa
    · exact h1 a b ta tb hta' htb' hfa hfb hkey

/-- Entering a fetch marks the key in-flight, so the queue marking is
preserved for the new fetcher and untouched for the others. -/
theorem queueMarksFetchT_enter_fetch {tasks : List TaskState}
    {queue : List (String × Bool)} {i : Nat} {t t' : TaskState}
    (h2 : QueueMarksFetchT tasks queue) (hname : t'.name = t.name) :
    QueueMarksFetchT (tasks.set i t') ((jsToLowerCase t.name, true) :: queue) := by
  intro a ta hta hfa
  rw [queueTruthy_cons]
  rcases getElem?_set_cases hta with ⟨hia, hba⟩ | ⟨hia, hta'⟩
  · rw [← hba, hname]
    simp
  · by_cases hk : jsToLowerCase ta.name = jsToLowerCase t.name
    · simp [hk]
    · rw [if_neg hk]
      exact h2 a ta hta' hfa

/-- When the unique fetcher of a key settles, overwriting that key's flag
cannot unmark any other fetching task's key. -/
theorem queueMarksFetchT_complete {tasks : List TaskState}
    {queue : List (String × Bool)} {i : Nat} {t t' : TaskState} (b : Bool)
    (htask : tasks[i]? = some t) (hfetch : t.phase = .fetching)
    (h1 : SingleFlightT tasks) (h2 : QueueMarksFetchT tasks queue)
    (hph : t'.phase ≠ .fetching) :
    QueueMarksFetchT (tasks.set i t') ((jsToLowerCase t.name, b) :: queue) := by
  intro a ta hta hfa
  rcases getElem?_set_cases hta with ⟨hia, hba⟩ | ⟨hia, hta'⟩
  · exact absurd (by rw [hba]; exact hfa) hph
  · rw [queueTruthy_cons]
    by_cases hk : jsToLowerCase ta.name = jsToLowerCase t.name
    · exact absurd (h1 a i ta t hta' htask hfa hfetch hk).symm hia
    · rw [if_neg hk]
      exact h2 a ta hta' hfa

/-- One step of any caller preserves both single-flight invariants. -/
theorem stepTask_preserves (orc : String → Except Unit Nat) (s : Sys) (i : Nat)
    (h1 : SingleFlightT s.tasks) (h2 : QueueMarksFetchT s.tasks s.fetchQueue) :
    SingleFlightT (stepTask orc s i).tasks ∧
    QueueMarksFetchT (stepTask orc s i).tasks (stepTask orc s i).fetchQueue := by
  cases htask : s.tasks[i]? with
  | none =>
    simp only [stepTask, htask]
    exact ⟨h1, h2⟩
  | some t =>
    cases hph : t.phase with
    | start =>
      by_cases hc : cacheTruthy s.tokenCache (jsToLowerCase t.name) = true
      · simp only [stepTask, htask, hph, hc, if_true]
        exact ⟨singleFlightT_set_nonfetch h1 (by simp),
          queueMarksFetchT_set_nonfetch h2 (by simp)⟩
      · rw [Bool.not_eq_true] at hc
        by_cases hq : queueTruthy s.fetchQueue (jsToLowerCase t.name) = true
        · simp only [stepTask, htask, hph, hc, hq, Bool.false_eq_true, if_false, if_true]
          exact ⟨singleFlightT_set_nonfetch h1 (by simp),
            queueMarksFetchT_set_nonfetch h2 (by simp)⟩
        · rw [Bool.not_eq_true] at hq
          simp only [stepTask, htask, hph, hc, hq, Bool.false_eq_true, if_false]
          exact ⟨singleFlightT_enter_fetch h1 h2 hq rfl,
            queueMarksFetchT_enter_fetch h2 rfl⟩
    | sleeping =>
      simp only [stepTask, htask, hph]
      exact ⟨singleFlightT_set_nonfetch h1 (by simp),
        queueMarksFetchT_set_nonfetch h2 (by simp)⟩
    | fetching =>
      cases horc : orc t.name with
      | ok c =>
        simp only [stepTask, htask, hph, horc]
        exact ⟨singleFlightT_set_nonfetch h1 (by simp),
          queueMarksFetchT_complete false htask hph h1 h2 (by simp)⟩
      | error e =>
        simp only [stepTask, htask, hph, horc]
        exact ⟨singleFlightT_set_nonfetch h1 (by simp),
          queueMarksFetchT_set_nonfetch h2 (by simp)⟩
    | done r =>
      simp only [stepTask, htask, hph]
      exact ⟨h1, h2⟩

/-- Both single-flight invariants hold in the initial state and are
preserved by every schedule. -/
theorem runSched_preserves (orc : String → Except Unit Nat) (names : List String)
    (sched : List Nat) :
    SingleFlightT (runSched orc (initSys names) sched).tasks ∧
    QueueMarksFetchT (runSched orc (initSys names) sched).tasks
      (runSched orc (initSys names) sched).fetchQueue := by
  suffices h : ∀ s : Sys, SingleFlightT s.tasks → QueueMarksFetchT s.tasks s.fetchQueue →
      SingleFlightT (runSched orc s sched).tasks ∧
      QueueMarksFetchT (runSched orc s sched).tasks (runSched orc s sched).fetchQueue by
    refine h _ ?_ ?_
    · intro a b ta tb hta htb hfa hfb hkey
      rw [initSys, List.getElem?_map] at hta
      cases hna : names[a]? with
      | none => rw [hna] at hta; exact Option.noConfusion hta
      | some na =>
        rw [hna] at hta
        cases Option.some.inj hta
        exact Phase.noConfusion hfa
    · intro a ta hta hfa
      rw [initSys, List.getElem?_map] at hta
      cases hna : names[a]? with
      | none => rw [hna] at hta; exact Option.noConfusion hta
      | some na =>
        rw [hna] at hta
        cases Option.some.inj hta
        exact Phase.noConfusion hfa
  induction sched with
  | nil => intro s h1 h2; exact ⟨h1, h2⟩
  | cons i rest ih =>
    intro s h1 h2
    have hstep := stepTask_preserves orc s i h1 h2
    exact ih (stepTask orc s i) hstep.1 hstep.2

/-- A step of an absent caller index changes nothing. -/
theorem stepTask_oob (orc : String → Except Unit Nat) (s : Sys) (i : Nat)
    (h : s.tasks.length ≤ i) : stepTask orc s i = s := by
  simp [stepTask, List.getElem?_eq_none h]

/-- A run stays inside any finite set of states that is closed under the
steps of its (fixed-size) caller set. -/
theorem runSched_mem (orc : String → Except Unit Nat) (R : List Sys) (n : Nat)
    (hlen : ∀ s ∈ R, s.tasks.length = n)
    (hcl : ∀ s ∈ R, ∀ i < n, stepTask orc s i ∈ R) :
    ∀ (sched : List Nat) (s : Sys), s ∈ R → runSched orc s sched ∈ R := by
  intro sched
  induction sched with
  | nil => intro s hs; exact hs
  | cons i rest ih =>
    intro s hs
    have hstep : stepTask orc s i ∈ R := by
      by_cases hi : i < n
      · exact hcl s hs i hi
      · rw [stepTask_oob orc s i (by rw [hlen s hs]; omega)]
        exact hs
    exact ih (stepTask orc s i) hstep

/-- An upstream analyzer that yields one token for every text. -/
def oneTokenOrc : String → Except Unit Nat := fun _ => .ok 1

/-- An upstream analyzer whose every call fails. -/
def failOrc : String → Except Unit Nat := fun _ => .error ()

/-- An upstream analyzer that yields zero tokens for every text. -/
def zeroTokenOrc : String → Except Unit Nat := fun _ => .ok 0

/-- Every state reachable by two concurrent callers of
`tokenizeNameWrap("Test")` / `tokenizeNameWrap("TEST")` against a
one-token analyzer. -/
def testReach : List Sys :=
  [{ tokenCache := [], fetchQueue := [],
     tasks := [{ name := "Test", phase := .start }, { name := "TEST", phase := .start }],
     calls := [] },
   { tokenCache := [], fetchQueue := [("test", true)],
     tasks := [{ name := "Test", phase := .fetching }, { name := "TEST", phase := .start }],
     calls := ["Test"] },
   { tokenCache := [], fetchQueue := [("test", true)],
     tasks := [{ name := "Test", phase := .start }, { name := "TEST", phase := .fetching }],
     calls := ["TEST"] },
   { tokenCache := [("test", 1)], fetchQueue := [("test", false), ("test", true)],
     tasks := [{ name := "Test", phase := .done (.ok 1) }, { name := "TEST", phase := .start }],
     calls := ["Test"] },
   { tokenCache := [], fetchQueue := [("test", true)],
     tasks := [{ name := "Test", phase := .fetching }, { name := "TEST", phase := .sleeping }],
     calls := ["Test"] },
   { tokenCache := [], fetchQueue := [("test", true)],
     tasks := [{ name := "Test", phase := .sleeping }, { name := "TEST", phase := .fetching }],
     calls := ["TEST"] },
   { tokenCache := [("test", 1)], fetchQueue := [("test", false), ("test", true)],
     tasks := [{ name := "Test", phase := .start }, { name := "TEST", phase := .done (.ok 1) }],
     calls := ["TEST"] },
   { tokenCache := [("test", 1)], fetchQueue := [("test", false), ("test", true)],
     tasks := [{ name := "Test", phase := .done (.ok 1) },
               { name := "TEST", phase := .done (.ok 1) }],
     calls := ["Test"] },
   { tokenCache := [("test", 1)], fetchQueue := [("test", false), ("test", true)],
     tasks := [{ name := "Test", phase := .done (.ok 1) }, { name := "TEST", phase := .sleeping }],
     calls := ["Test"] },
   { tokenCache := [("test", 1)], fetchQueue := [("test", false), ("test", true)],
     tasks := [{ name := "Test", phase := .sleeping }, { name := "TEST", phase := .done (.ok 1) }],
     calls := ["TEST"] },
   { tokenCache := [("test", 1)], fetchQueue := [("test", false), ("test", true)],
     tasks := [{ name := "Test", phase := .done (.ok 1) },
               { name := "TEST", phase := .done (.ok 1) }],
     calls := ["TEST"] }]

/-- Every state reachable by two concurrent callers of
`tokenizeNameWrap("x")` against a failing analyzer. -/
def errReach : List Sys :=
  [{ tokenCache := [], fetchQueue := [],
     tasks := [{ name := "x", phase := .start }, { name := "x", phase := .start }],
     calls := [] },
   { tokenCache := [], fetchQueue := [("x", true)],
     tasks := [{ name := "x", phase := .fetching }, { name := "x", phase := .start }],
     calls := ["x"] },
   { tokenCache := [], fetchQueue := [("x", true)],
     tasks := [{ name := "x", phase := .start }, { name := "x", phase := .fetching }],
     calls := ["x"] },
   { tokenCache := [], fetchQueue := [("x", true)],
     tasks := [{ name := "x", phase := .done (.error ()) }, { name := "x", phase := .start }],
     calls := ["x"] },
   { tokenCache := [], fetchQueue := [("x", true)],
     tasks := [{ name := "x", phase := .fetching }, { name := "x", phase := .sleeping }],
     calls := ["x"] },
   { tokenCache := [], fetchQueue := [("x", true)],
     tasks := [{ name := "x", phase := .sleeping }, { name := "x", phase := .fetching }],
     calls := ["x"] },
   { tokenCache := [], fetchQueue := [("x", true)],
     tasks := [{ name := "x", phase := .start }, { name := "x", phase := .done (.error ()) }],
     calls := ["x"] },
   { tokenCache := [], fetchQueue := [("x", true)],
     tasks := [{ name := "x", phase := .done (.error ()) }, { name := "x", phase := .sleeping }],
     calls := ["x"] },
   { tokenCache := [], fetchQueue := [("x", true)],
     tasks := [{ name := "x", phase := .sleeping }, { name := "x", phase := .done (.error ()) }],
     calls := ["x"] }]

/-! ### Claims about the single-flight cache -/

/-- C4: in every interleaving of any set of `tokenizeNameWrap` callers, at
most one upstream analysis call per normalized name is outstanding at any
time; and for the two concurrent callers `Test` / `TEST` against a
one-token analyzer, every interleaving in which both complete resolves
both to token count 1 having issued exactly one upstream call — and such
interleavings exist. -/
theorem tokenize_single_flight :
    (∀ (orc : String → Except Unit Nat) (names : List String) (sched : List Nat),
      SingleFlightT (runSched orc (initSys names) sched).tasks) ∧
    (∀ sched : List Nat,
      taskDone (runSched oneTokenOrc (initSys ["Test", "TEST"]) sched) 0 = true →
      taskDone (runSched oneTokenOrc (initSys ["Test", "TEST"]) sched) 1 = true →
      (runSched oneTokenOrc (initSys ["Test", "TEST"]) sched).tasks.map
          (fun t => t.phase) = [.done (.ok 1), .done (.ok 1)] ∧
        (runSched oneTokenOrc (initSys ["Test", "TEST"]) sched).calls.length = 1) ∧
    (taskDone (runSched oneTokenOrc (initSys ["Test", "TEST"]) [0, 0, 1]) 0 = true ∧
      taskDone (runSched oneTokenOrc (initSys ["Test", "TEST"]) [0, 0, 1]) 1 = true) := by
  refine ⟨?_, ?_, by decide⟩
  · intro orc names sched
    exact (runSched_preserves orc names sched).1
  · intro sched
    have hmem := runSched_mem oneTokenOrc testReach 2 (by decide) (by decide) sched
      (initSys ["Test", "TEST"]) (by decide)
    revert hmem
    generalize runSched oneTokenOrc (initSys ["Test", "TEST"]) sched = s
    intro hmem
    exact (by decide : ∀ s ∈ testReach, taskDone s 0 = true → taskDone s 1 = true →
      s.tasks.map (fun t => t.phase) = [Phase.done (.ok 1), Phase.done (.ok 1)] ∧
        s.calls.length = 1) s hmem

/-- Witness for `tokenize_single_flight` at the schedule that runs the
first caller to completion and then the second. -/
theorem tokenize_single_flight_witness :
    (runSched oneTokenOrc (initSys ["Test", "TEST"]) [0, 0, 1]).tasks.map
        (fun t => t.phase) = [.done (.ok 1), .done (.ok 1)] ∧
      (runSched oneTokenOrc (initSys ["Test", "TEST"]) [0, 0, 1]).calls.length = 1 :=
  tokenize_single_flight.2.1 [0, 0, 1] (by decide) (by decide)

/-- C5: against a failing analyzer, in every interleaving of the two
concurrent callers of `tokenizeNameWrap("x")` no cache entry is populated
(as the claim states), but at most one upstream call is ever issued — a
later call never performs a fresh fetch, because the in-flight flag is
never cleared on failure — and the two callers never both settle: the
failure reaches at most the caller that issued the fetch, while the
polling waiter sleeps and re-checks forever. -/
theorem tokenize_error_stuck (sched : List Nat) :
    (runSched failOrc (initSys ["x", "x"]) sched).tokenCache = [] ∧
    (runSched failOrc (initSys ["x", "x"]) sched).calls.length ≤ 1 ∧
    ¬(taskDone (runSched failOrc (initSys ["x", "x"]) sched) 0 = true ∧
      taskDone (runSched failOrc (initSys ["x", "x"]) sched) 1 = true) := by
  have hmem := runSched_mem failOrc errReach 2 (by decide) (by decide) sched
    (initSys ["x", "x"]) (by decide)
  revert hmem
  generalize runSched failOrc (initSys ["x", "x"]) sched = s
  intro hmem
  exact (by decide : ∀ s ∈ errReach, s.tokenCache = [] ∧ s.calls.length ≤ 1 ∧
    ¬(taskDone s 0 = true ∧ taskDone s 1 = true)) s hmem

/-- C8 counterexample: after one caller successfully resolves the empty
string — whose token count is 0 — with one upstream call, a second call
for the same name is not served from the cache: its very first step
issues a second upstream analysis call, because the cache check uses
JavaScript truthiness and a stored 0 is falsy. -/
theorem tokenize_zero_not_cached_counterexample :
    (runSched zeroTokenOrc (initSys ["", ""]) [0, 0]).tasks.map (fun t => t.phase) =
      [.done (.ok 0), .start] ∧
    (runSched zeroTokenOrc (initSys ["", ""]) [0, 0]).calls = [""] ∧
    (runSched zeroTokenOrc (initSys ["", ""]) [0, 0, 1]).calls = ["", ""] := by decide

/-- C8 (amended): once a name has been successfully resolved with a
positive token count, a second call with any casing of the same name is
answered in a single step from the cache with that same count, and no
additional upstream analysis call is issued. -/
theorem tokenize_cached_hit (n1 n2 : String) (c : Nat)
    (hkey : jsToLowerCase n2 = jsToLowerCase n1) (hc : c ≠ 0) :
    (runSched (fun _ => .ok c) (initSys [n1, n2]) [0, 0, 1]).tasks.map
        (fun t => t.phase) = [.done (.ok c), .done (.ok c)] ∧
    (runSched (fun _ => .ok c) (initSys [n1, n2]) [0, 0, 1]).calls = [n1] := by
  simp [runSched, stepTask, initSys, cacheTruthy, cacheValue, queueTruthy,
    List.lookup, hkey, hc]

/-- Witness for `tokenize_cached_hit` at `Test` / `TEST` with one token. -/
theorem tokenize_cached_hit_witness :
    (runSched (fun _ => .ok 1) (initSys ["Test", "TEST"]) [0, 0, 1]).tasks.map
        (fun t => t.phase) = [.done (.ok 1), .done (.ok 1)] ∧
    (runSched (fun _ => .ok 1) (initSys ["Test", "TEST"]) [0, 0, 1]).calls = ["Test"] :=
  tokenize_cached_hit "Test" "TEST" 1 (by decide) (by decide)

end BestbetsLoader
